import Mathlib

/-!
Inventory service: statement builders, repository and use cases.

A shallow embedding of `utilities/counter`, `inventory/entities`,
`inventory/repositories`, `inventory/usecases` and the error mapping of
`inventory/handlers`, followed by the properties proved about them.

Conventions of the embedding:
* `uint64` values and `entities.ID` are natural numbers (no arithmetic is ever
  done on them); the counter's `int` is an integer wrapped to 64 bits;
* `time.Now().UTC()` is an explicit argument `now`;
* `[]string` and `[]any` locals of the builders are lists (only `len`, `append`
  and `range` are used on them, which treat a nil and an empty slice alike);
  the `Inventories` slice of a page keeps the nil / non-nil distinction;
* the `*sql.DB` handle is a record of functions over an explicit store state.
-/

namespace GoHttpServe

/-! ## utilities/counter -/

/-- Two's-complement wrap of an integer to the range of a 64-bit `int`. -/
def wrapInt64 (x : Int) : Int := (x + 2 ^ 63) % 2 ^ 64 - 2 ^ 63

/-- The `strconv.Itoa` function: decimal text of an `int`. -/
def Itoa (n : Int) : String :=
  match n with
  | Int.ofNat k => Nat.repr k
  | Int.negSucc k => "-" ++ Nat.repr (k + 1)

/-- The `Counter` struct; its zero value has `i = 0`. -/
structure Counter where
  i : Int := 0
  deriving DecidableEq, Repr

/-- The method `(*Counter).Next`: increments in place and returns the new value;
the updated counter is returned alongside. -/
def Counter.Next (c : Counter) : Counter × Int :=
  let c1 : Counter := { i := wrapInt64 (c.i + 1) }
  (c1, c1.i)

/-- The method `(*Counter).NextString`. -/
def Counter.NextString (c : Counter) : Counter × String :=
  let r := c.Next
  (r.1, Itoa r.2)

/-! ## inventory/entities -/

/-- The type `entities.ID` (a `uint64`). -/
abbrev ID := Nat

/-- A `time.Time` value, as an abstract instant. -/
abbrev Time := Nat

/-- The struct `entities.InventoryData`. -/
structure InventoryData where
  Name : String
  Description : String
  FullPriceTHB : Nat
  Count : Nat
  ManufacturerID : Nat
  deriving DecidableEq, Repr

/-- The struct `entities.PartialInventoryData`: a nil pointer is `none`. -/
structure PartialInventoryData where
  Name : Option String
  Description : Option String
  FullPriceTHB : Option Nat
  Count : Option Nat
  ManufacturerID : Option Nat
  deriving DecidableEq, Repr

/-- The struct `entities.Inventory` (the embedded `InventoryData` is a field). -/
structure Inventory where
  ID : ID
  Data : InventoryData
  CreatedAt : Time
  UpdatedAt : Time
  deriving DecidableEq, Repr

/-- The struct `entities.GetInventoriesFilter`. -/
structure GetInventoriesFilter where
  Cursor : ID
  Limit : Nat
  deriving DecidableEq, Repr

/-- A Go slice with the nil slice kept apart from an allocated one. -/
inductive Slice (α : Type) where
  | nil : Slice α
  | of (xs : List α) : Slice α
  deriving DecidableEq, Repr

/-- Elements of a slice. -/
def Slice.toList {α : Type} : Slice α → List α
  | Slice.nil => []
  | Slice.of xs => xs

/-- The builtin `len`. -/
def Slice.len {α : Type} (s : Slice α) : Nat := s.toList.length

/-- The builtin `append(s, x)`: the result is never nil. -/
def Slice.append {α : Type} (s : Slice α) (x : α) : Slice α := Slice.of (s.toList ++ [x])

/-- Whether a slice is the nil slice. -/
def Slice.isNil {α : Type} : Slice α → Bool
  | Slice.nil => true
  | Slice.of _ => false

/-- The struct `entities.PaginatedInventories`. -/
structure PaginatedInventories where
  Inventories : Slice Inventory
  Cursor : ID
  deriving DecidableEq, Repr

/-- Go `error` values that occur in the service: the two package-level values of
`entities/error.go`, an error produced by the database layer (a leaf, never
identical to one of the package-level values), and the `*fmt.wrapError` built by
`fmt.Errorf` with one `%w` verb (`msg` is the formatted text, `err` the operand
of `%w`). -/
inductive GoError where
  | ErrInternalServer : GoError
  | ErrInventoryNotFound : GoError
  | store (text : String) : GoError
  | wrapError (msg : String) (err : GoError) : GoError
  deriving DecidableEq, Repr

/-- The method `Error()`. -/
def GoError.Error : GoError → String
  | GoError.ErrInternalServer => "internal server error"
  | GoError.ErrInventoryNotFound => "inventory not found"
  | GoError.store text => text
  | GoError.wrapError msg _ => msg

/-- The function `errors.Is`: compares `err` with `target`, then follows
`Unwrap`. The service only ever passes a package-level value as `target`, for
which comparing values agrees with Go's comparison of pointers. -/
def errorsIs (err target : GoError) : Bool :=
  match err with
  | GoError.wrapError msg inner =>
      decide (GoError.wrapError msg inner = target) || errorsIs inner target
  | e => decide (e = target)

/-! ## inventory/repositories: statement builders -/

/-- An element of a `[]any` parameter list. -/
inductive Param where
  | uint64 (v : Nat) : Param
  | str (s : String) : Param
  | time (t : Time) : Param
  | id (v : ID) : Param
  deriving DecidableEq, Repr

/-- The local variables of `buildUpdateStatement`. -/
structure UpdateLocals where
  res : String
  numGen : Counter
  setColumns : List String
  params : List Param
  deriving DecidableEq, Repr

/-- One `if field != nil { setColumns = append(..); params = append(..) }` block. -/
def setField (column : String) (value : Option Param) (s : UpdateLocals) : UpdateLocals :=
  match value with
  | none => s
  | some v =>
      let r := s.numGen.NextString
      { s with numGen := r.1, setColumns := s.setColumns ++ [column ++ " = $" ++ r.2],
               params := s.params ++ [v] }

/-- The loop `for i, col := range setColumns { if i > 0 { res += "," }; res += " " + col }`. -/
def joinColumns (res : String) (setColumns : List String) : String :=
  setColumns.enum.foldl
    (fun acc p => (if p.1 > 0 then acc ++ "," else acc) ++ (" " ++ p.2)) res

/-- The body of `buildUpdateStatement`, returning all locals at the `return`. -/
def buildUpdateLocals (id : ID) (inventoryData : PartialInventoryData) (now : Time) :
    UpdateLocals :=
  let s0 : UpdateLocals := { res := "UPDATE inventories", numGen := {}, setColumns := [], params := [] }
  let s1 := setField "count" (inventoryData.Count.map Param.uint64) s0
  let s2 := setField "description" (inventoryData.Description.map Param.str) s1
  let s3 := setField "full_price_thb" (inventoryData.FullPriceTHB.map Param.uint64) s2
  let s4 := setField "manufacturer_id" (inventoryData.ManufacturerID.map Param.uint64) s3
  let s5 := setField "name" (inventoryData.Name.map Param.str) s4
  let s6 : UpdateLocals :=
    if s5.setColumns.length > 0 then
      let r := s5.numGen.NextString
      { res := s5.res ++ " SET", numGen := r.1,
        setColumns := s5.setColumns ++ ["updated_at = $" ++ r.2],
        params := s5.params ++ [Param.time now] }
    else s5
  let s7 : UpdateLocals := { s6 with res := joinColumns s6.res s6.setColumns }
  let r := s7.numGen.NextString
  { s7 with res := s7.res ++ (" WHERE id = $" ++ r.2), numGen := r.1,
            params := s7.params ++ [Param.id id] }

/-- The method `buildUpdateStatement`: statement text and parameter list. -/
def buildUpdateStatement (id : ID) (inventoryData : PartialInventoryData) (now : Time) :
    String × List Param :=
  let s := buildUpdateLocals id inventoryData now
  (s.res, s.params)

/-- The local variables of `buildQueryStatement`. -/
structure QueryLocals where
  res : String
  numGen : Counter
  whereCondition : List String
  params : List Param
  deriving DecidableEq, Repr

/-- The loop `for i, cond := range whereCondition { if i > 0 { res += " AND" }; res += " " + cond }`. -/
def joinConditions (res : String) (whereCondition : List String) : String :=
  whereCondition.enum.foldl
    (fun acc p => (if p.1 > 0 then acc ++ " AND" else acc) ++ (" " ++ p.2)) res

/-- The body of `buildQueryStatement`, returning all locals at the `return`. -/
def buildQueryLocals (filter : GetInventoriesFilter) : QueryLocals :=
  let s0 : QueryLocals :=
    { res := "SELECT id, name, description, full_price_thb, manufacturer_id, count, created_at, updated_at FROM inventories",
      numGen := {}, whereCondition := [], params := [] }
  let s1 : QueryLocals :=
    if filter.Cursor > 0 then
      let r := s0.numGen.NextString
      { s0 with numGen := r.1, whereCondition := s0.whereCondition ++ ["id > $" ++ r.2],
                params := s0.params ++ [Param.id filter.Cursor] }
    else s0
  let s2 : QueryLocals :=
    if s1.whereCondition.length > 0 then { s1 with res := s1.res ++ " WHERE" } else s1
  let s3 : QueryLocals := { s2 with res := joinConditions s2.res s2.whereCondition }
  let s4 : QueryLocals := { s3 with res := s3.res ++ " ORDER BY id" }
  if filter.Limit > 0 then
    let r := s4.numGen.NextString
    { s4 with res := s4.res ++ (" LIMIT $" ++ r.2), numGen := r.1,
              params := s4.params ++ [Param.uint64 filter.Limit] }
  else s4

/-- The method `buildQueryStatement`: statement text and parameter list. -/
def buildQueryStatement (filter : GetInventoriesFilter) : String × List Param :=
  let s := buildQueryLocals filter
  (s.res, s.params)

/-! ## inventory/repositories: operations against the store -/

/-- What `sql.Result.RowsAffected()` returns: an `int64` count or an error. -/
structure SqlResult where
  RowsAffected : Except GoError Int

/-- One row of a result set: the eight selected columns in select order, and the
error (if any) that `Scan` reports for it. -/
structure Row where
  id : Nat
  name : String
  description : String
  full_price_thb : Nat
  manufacturer_id : Nat
  count : Nat
  created_at : Time
  updated_at : Time
  scanErr : Option GoError

/-- A `*sql.Rows`: the rows for which `Next()` returns true, then the value of
`Err()` once `Next()` has returned false. -/
structure Rows where
  rows : List Row
  Err : Option GoError

/-- The database executor: `ExecContext` and `QueryContext` of `*sql.DB`, over an
explicit store state `σ`. -/
structure DB (σ : Type) where
  ExecContext : σ → String → List Param → Except GoError SqlResult × σ
  QueryContext : σ → String → List Param → Except GoError Rows × σ

/-- The call `rows.Scan(&inventory.ID, &inventory.Name, &inventory.Description,
&inventory.FullPriceTHB, &inventory.ManufacturerID, &inventory.Count,
&inventory.CreatedAt, &inventory.UpdatedAt)`: destinations are filled positionally. -/
def Row.Scan (r : Row) : Except GoError Inventory :=
  match r.scanErr with
  | some e => Except.error e
  | none =>
      Except.ok
        { ID := r.id,
          Data := { Name := r.name, Description := r.description,
                    FullPriceTHB := r.full_price_thb, ManufacturerID := r.manufacturer_id,
                    Count := r.count },
          CreatedAt := r.created_at, UpdatedAt := r.updated_at }

/-- The method `Update` of the repository. -/
def Update {σ : Type} (db : DB σ) (s : σ) (id : ID) (inventoryData : PartialInventoryData)
    (now : Time) : Option GoError × σ :=
  let sp := buildUpdateStatement id inventoryData now
  match db.ExecContext s sp.1 sp.2 with
  | (Except.error err, s1) =>
      (some (GoError.wrapError
        (GoError.ErrInternalServer.Error ++ " unable to update row: " ++ err.Error)
        GoError.ErrInternalServer), s1)
  | (Except.ok result, s1) =>
      match result.RowsAffected with
      | Except.error err =>
          (some (GoError.wrapError
            (GoError.ErrInternalServer.Error ++ " unable to get row affected: " ++ err.Error)
            GoError.ErrInternalServer), s1)
      | Except.ok rowAffected =>
          if rowAffected = 0 then (some GoError.ErrInventoryNotFound, s1) else (none, s1)

/-- The loop `for rows.Next() { ... }` of `Find`: `some err` is the early return. -/
def scanRows (res : PaginatedInventories) : List Row → PaginatedInventories × Option GoError
  | [] => (res, none)
  | r :: rest =>
      match r.Scan with
      | Except.error err =>
          (res, some (GoError.wrapError
            (GoError.ErrInternalServer.Error ++ ": unable to scan a row: " ++ err.Error)
            GoError.ErrInternalServer))
      | Except.ok inventory =>
          scanRows { res with Inventories := res.Inventories.append inventory } rest

/-- The method `Find` of the repository. -/
def Find {σ : Type} (db : DB σ) (s : σ) (filter : GetInventoriesFilter) :
    (PaginatedInventories × Option GoError) × σ :=
  let res : PaginatedInventories := { Inventories := Slice.of [], Cursor := 0 }
  let sp := buildQueryStatement filter
  match db.QueryContext s sp.1 sp.2 with
  | (Except.error err, s1) =>
      ((res, some (GoError.wrapError ("unable to query inventories: " ++ err.Error) err)), s1)
  | (Except.ok rows, s1) =>
      match scanRows res rows.rows with
      | (res, some err) => ((res, some err), s1)
      | (res, none) =>
          match rows.Err with
          | some err =>
              ((res, some (GoError.wrapError
                (GoError.ErrInternalServer.Error ++ ": error occurred during scanning rows: "
                  ++ err.Error)
                GoError.ErrInternalServer)), s1)
          | none =>
              let res :=
                if res.Inventories.len > 0 then
                  { res with Cursor :=
                      (res.Inventories.toList.getD (res.Inventories.len - 1)
                        ⟨0, ⟨"", "", 0, 0, 0⟩, 0, 0⟩).ID }
                else res
              ((res, none), s1)

/-- The statement text of `Delete`: a raw string literal spanning three lines,
indented with tabs. -/
def deleteStatement : String := "\n\t\tDELETE FROM inventories\n\t\tWHERE id = $1;\n\t"

/-- The method `Delete` of the repository. -/
def Delete {σ : Type} (db : DB σ) (s : σ) (id : ID) : Option GoError × σ :=
  match db.ExecContext s deleteStatement [Param.id id] with
  | (Except.error err, s1) =>
      (some (GoError.wrapError
        (GoError.ErrInternalServer.Error ++ " unable to delete inventory with ID " ++ Nat.repr id
          ++ ": " ++ err.Error)
        GoError.ErrInternalServer), s1)
  | (Except.ok _, s1) => (none, s1)

/-! ## inventory/usecases -/

/-- The interface `repositories.InventoryRepository`, over a store state `σ`. -/
structure InventoryRepository (σ : Type) where
  Create : σ → InventoryData → (ID × Option GoError) × σ
  Update : σ → ID → PartialInventoryData → Option GoError × σ
  Find : σ → GetInventoriesFilter → (PaginatedInventories × Option GoError) × σ
  FindByID : σ → ID → (Inventory × Option GoError) × σ
  Delete : σ → ID → Option GoError × σ

/-- The use case `CreateInventory`. -/
def CreateInventory {σ : Type} (u : InventoryRepository σ) (s : σ) (inventory : InventoryData) :
    (ID × Option GoError) × σ :=
  match u.Create s inventory with
  | ((id, some err), s1) =>
      ((id, some (GoError.wrapError ("unable to create inventory: " ++ err.Error) err)), s1)
  | ((id, none), s1) => ((id, none), s1)

/-- The use case `GetInventories`. -/
def GetInventories {σ : Type} (u : InventoryRepository σ) (s : σ) (filter : GetInventoriesFilter) :
    (PaginatedInventories × Option GoError) × σ :=
  match u.Find s filter with
  | ((inventories, some err), s1) =>
      ((inventories, some (GoError.wrapError ("unable to get inventories: " ++ err.Error) err)), s1)
  | ((inventories, none), s1) => ((inventories, none), s1)

/-- The use case `UpdateInventory`. -/
def UpdateInventory {σ : Type} (u : InventoryRepository σ) (s : σ) (id : ID)
    (partialInventory : PartialInventoryData) : Option GoError × σ :=
  match u.Update s id partialInventory with
  | (some err, s1) =>
      (some (GoError.wrapError ("unable to update inventory: " ++ err.Error) err), s1)
  | (none, s1) => (none, s1)

/-- The use case `DeleteInventory`. -/
def DeleteInventory {σ : Type} (u : InventoryRepository σ) (s : σ) (id : ID) : Option GoError × σ :=
  match u.Delete s id with
  | (some err, s1) =>
      (some (GoError.wrapError ("unable to delete inventory: " ++ err.Error) err), s1)
  | (none, s1) => (none, s1)

/-! ## inventory/handlers: error mapping -/

/-- The struct `rest.ErrorResponse`. -/
structure ErrorResponse where
  Error : String
  deriving DecidableEq, Repr

/-- The method `createErrorResponse` (`http.StatusNotFound` is 404,
`http.StatusInternalServerError` is 500). -/
def createErrorResponse (err : GoError) : Int × ErrorResponse :=
  if errorsIs err GoError.ErrInventoryNotFound then
    (404, { Error := err.Error })
  else
    (500, { Error := "internal server error" })

/-! ## Observers used to state the properties -/

/-- Number of fields of a payload that are present (non-nil). -/
def presentCount (d : PartialInventoryData) : Nat :=
  (if d.Count.isSome then 1 else 0) + (if d.Description.isSome then 1 else 0)
    + (if d.FullPriceTHB.isSome then 1 else 0) + (if d.ManufacturerID.isSome then 1 else 0)
    + (if d.Name.isSome then 1 else 0)

/-- Value of a run of decimal digits. -/
def digitsValue (cs : List Char) : Nat :=
  cs.foldl (fun n c => 10 * n + (c.toNat - '0'.toNat)) 0

/-- The placeholder numbers of a statement text, in order of occurrence: every
`$` followed by its run of decimal digits. -/
def placeholders : List Char → List Nat
  | [] => []
  | c :: cs =>
      if c = '$' then digitsValue (cs.takeWhile Char.isDigit) :: placeholders cs
      else placeholders cs

/-- A column with its value when the field is present, nothing otherwise. -/
def optField (column : String) (value : Option Param) : List (String × Param) :=
  match value with
  | none => []
  | some v => [(column, v)]

/-- The columns a payload assigns, with their values, as the specification lists
them: the present fields in the order count, description, full_price_thb,
manufacturer_id, name, then `updated_at` with the timestamp when at least one
field is present. -/
def specAssignedFields (d : PartialInventoryData) (now : Time) : List (String × Param) :=
  let fs : List (String × Param) :=
    optField "count" (d.Count.map Param.uint64)
      ++ optField "description" (d.Description.map Param.str)
      ++ optField "full_price_thb" (d.FullPriceTHB.map Param.uint64)
      ++ optField "manufacturer_id" (d.ManufacturerID.map Param.uint64)
      ++ optField "name" (d.Name.map Param.str)
  if fs.isEmpty then [] else fs ++ [("updated_at", Param.time now)]

/-- Assignment texts `<column> = $i` for consecutive numbers starting at `i`. -/
def numberFrom (i : Nat) : List String → List String
  | [] => []
  | c :: cs => (c ++ " = $" ++ Itoa (Int.ofNat i)) :: numberFrom (i + 1) cs

/-- The assignment texts of the specification: the i-th (1-based) is `<column> = $i`. -/
def specAssignments (fs : List (String × Param)) : List String :=
  numberFrom 1 (fs.map Prod.fst)

/-- Whether two payloads have the same set of present fields. -/
def samePresence (d1 d2 : PartialInventoryData) : Prop :=
  d1.Count.isSome = d2.Count.isSome ∧ d1.Description.isSome = d2.Description.isSome ∧
  d1.FullPriceTHB.isSome = d2.FullPriceTHB.isSome ∧
  d1.ManufacturerID.isSome = d2.ManufacturerID.isSome ∧ d1.Name.isSome = d2.Name.isSome

/-- The record a row scans into when `Scan` reports no error: each column value
lands in the field of the same name. -/
def Row.toInventory (r : Row) : Inventory :=
  { ID := r.id,
    Data := { Name := r.name, Description := r.description, FullPriceTHB := r.full_price_thb,
              ManufacturerID := r.manufacturer_id, Count := r.count },
    CreatedAt := r.created_at, UpdatedAt := r.updated_at }

/-- Two errors are classified alike: each is NotFound iff the other is, and
InternalError iff the other is. -/
def sameClassification (e1 e2 : GoError) : Prop :=
  errorsIs e1 GoError.ErrInventoryNotFound = errorsIs e2 GoError.ErrInventoryNotFound ∧
    errorsIs e1 GoError.ErrInternalServer = errorsIs e2 GoError.ErrInternalServer

/-- How a use case relays the repository's error: nothing on success; on failure
an error whose text is the repository's text behind the operation context, with
the same classification, which the handler maps to 404 (with that text) when it is
NotFound and to 500 with the fixed body otherwise. -/
def relayed (context : String) (repoErr ucErr : Option GoError) : Prop :=
  match repoErr with
  | none => ucErr = none
  | some err =>
      ∃ e2, ucErr = some e2 ∧ e2.Error = context ++ err.Error ∧ sameClassification e2 err ∧
        createErrorResponse e2
          = (if errorsIs err GoError.ErrInventoryNotFound then (404, { Error := e2.Error })
             else (500, { Error := "internal server error" }))

/-- The payload with every present value replaced by a fixed one. -/
def shape (d : PartialInventoryData) : PartialInventoryData :=
  { Name := d.Name.map (fun _ => ""), Description := d.Description.map (fun _ => ""),
    FullPriceTHB := d.FullPriceTHB.map (fun _ => 0), Count := d.Count.map (fun _ => 0),
    ManufacturerID := d.ManufacturerID.map (fun _ => 0) }

/-! ## Example stores -/

/-- The store of the examples: a list of rows, queried in full; executing the
delete statement with parameter `id` removes the rows having that id, executing
any other statement leaves the rows alone; both report the number of rows whose id
is the last parameter. -/
def memoryDB : DB (List Row) where
  ExecContext := fun st statement params =>
    match params.getLast? with
    | some (Param.id i) =>
        (Except.ok { RowsAffected := Except.ok (Int.ofNat (st.filter (fun r => r.id = i)).length) },
          if statement = deleteStatement then st.filter (fun r => r.id ≠ i) else st)
    | _ => (Except.ok { RowsAffected := Except.ok 0 }, st)
  QueryContext := fun st _ _ => (Except.ok { rows := st, Err := none }, st)

/-- Two rows with ids 4 and 9. -/
def twoRows : List Row :=
  [⟨4, "bolt", "m4 bolt", 250, 17, 100, 1000, 1000, none⟩,
   ⟨9, "nut", "m4 nut", 120, 17, 80, 1001, 1002, none⟩]

/-- A store whose every call fails with a connection error. -/
def refusingDB : DB Unit where
  ExecContext := fun st _ _ => (Except.error (GoError.store "connection refused"), st)
  QueryContext := fun st _ _ => (Except.error (GoError.store "connection refused"), st)

/-- A repository over a one-cell store in which every operation fails: `Update`
with NotFound, the others with a wrapped internal error. -/
def failingRepository : InventoryRepository Unit where
  Create := fun st _ =>
    ((0, some (GoError.wrapError "internal server error, unable to insert data to database: x"
      GoError.ErrInternalServer)), st)
  Update := fun st _ _ => (some GoError.ErrInventoryNotFound, st)
  Find := fun st _ =>
    (({ Inventories := Slice.of [], Cursor := 0 },
      some (GoError.wrapError "internal server error: unable to scan a row: x"
        GoError.ErrInternalServer)), st)
  FindByID := fun st _ => ((⟨0, ⟨"", "", 0, 0, 0⟩, 0, 0⟩, some GoError.ErrInventoryNotFound), st)
  Delete := fun st _ =>
    (some (GoError.wrapError "internal server error unable to delete inventory with ID 1: x"
      GoError.ErrInternalServer), st)

/-! ## Helper lemmas -/

/-- Mapping to a constant only depends on presence. -/
theorem map_const_of_isSome_eq {α : Type} (a b : Option α) (x : α)
    (h : a.isSome = b.isSome) : a.map (fun _ => x) = b.map (fun _ => x) := by
  cases a <;> cases b <;> simp_all

/-- Payloads with the same present fields have the same shape. -/
theorem shape_eq_of_samePresence (d1 d2 : PartialInventoryData) (h : samePresence d1 d2) :
    shape d1 = shape d2 := by
  obtain ⟨hc, hd, hf, hm, hn⟩ := h
  simp only [shape, map_const_of_isSome_eq _ _ _ hc, map_const_of_isSome_eq _ _ _ hd,
    map_const_of_isSome_eq _ _ _ hf, map_const_of_isSome_eq _ _ _ hm,
    map_const_of_isSome_eq _ _ _ hn]

/-- The update text is that of the payload's shape with id and clock zeroed. -/
theorem updateText_eq_shape (id : ID) (d : PartialInventoryData) (now : Time) :
    (buildUpdateStatement id d now).1 = (buildUpdateStatement 0 (shape d) 0).1 := by
  obtain ⟨n, de, f, c, m⟩ := d
  cases n <;> cases de <;> cases f <;> cases c <;> cases m <;> rfl

/-- The four shapes of the list statement. -/
theorem buildQueryStatement_cases (filter : GetInventoriesFilter) :
    buildQueryStatement filter
      = (if 0 < filter.Cursor then
          if 0 < filter.Limit then
            ("SELECT id, name, description, full_price_thb, manufacturer_id, count, created_at, updated_at FROM inventories WHERE id > $1 ORDER BY id LIMIT $2",
              [Param.id filter.Cursor, Param.uint64 filter.Limit])
          else
            ("SELECT id, name, description, full_price_thb, manufacturer_id, count, created_at, updated_at FROM inventories WHERE id > $1 ORDER BY id",
              [Param.id filter.Cursor])
        else
          if 0 < filter.Limit then
            ("SELECT id, name, description, full_price_thb, manufacturer_id, count, created_at, updated_at FROM inventories ORDER BY id LIMIT $1",
              [Param.uint64 filter.Limit])
          else
            ("SELECT id, name, description, full_price_thb, manufacturer_id, count, created_at, updated_at FROM inventories ORDER BY id",
              [])) := by
  obtain ⟨c, l⟩ := filter
  by_cases hc : 0 < c <;> by_cases hl : 0 < l <;>
    simp only [buildQueryStatement, buildQueryLocals, hc, hl, if_true, if_false, gt_iff_lt] <;>
    rfl

/-- Wrapping with `%w` keeps the answer of `errors.Is` for the two package-level
error values. -/
theorem errorsIs_wrapError_notFound (msg : String) (e : GoError) :
    errorsIs (GoError.wrapError msg e) GoError.ErrInventoryNotFound
      = errorsIs e GoError.ErrInventoryNotFound := by
  simp [errorsIs]

theorem errorsIs_wrapError_internal (msg : String) (e : GoError) :
    errorsIs (GoError.wrapError msg e) GoError.ErrInternalServer
      = errorsIs e GoError.ErrInternalServer := by
  simp [errorsIs]

/-- An error built by `fmt.Errorf` around `%w` of the repository's error is relayed. -/
theorem relayed_wrap (context : String) (err : GoError) :
    relayed context (some err) (some (GoError.wrapError (context ++ err.Error) err)) := by
  refine ⟨_, rfl, rfl, ⟨errorsIs_wrapError_notFound _ _, errorsIs_wrapError_internal _ _⟩, ?_⟩
  simp only [createErrorResponse, errorsIs_wrapError_notFound]

/-- Away from the top of the 64-bit range, `Next` returns the successor. -/
theorem Counter_Next_succ (c : Counter) (h0 : 0 ≤ c.i) (h1 : c.i < 2 ^ 63 - 1) :
    c.Next = ({ i := c.i + 1 }, c.i + 1) := by
  have hw : wrapInt64 (c.i + 1) = c.i + 1 := by
    unfold wrapInt64
    norm_num at h1 ⊢
    omega
  simp only [Counter.Next, hw]

/-- The loop of `Find` over rows that all scan without error appends their records
in order and does not return early. -/
theorem scanRows_all_ok (xs : List Inventory) (cursor : ID) (rows : List Row)
    (hs : ∀ r ∈ rows, r.scanErr = none) :
    scanRows { Inventories := Slice.of xs, Cursor := cursor } rows
      = ({ Inventories := Slice.of (xs ++ rows.map Row.toInventory), Cursor := cursor }, none) := by
  induction rows generalizing xs with
  | nil => simp [scanRows]
  | cons r rest ih =>
    have hr : r.scanErr = none := hs r (List.mem_cons_self _ _)
    have hrest : ∀ q ∈ rest, q.scanErr = none := fun q hq => hs q (List.mem_cons_of_mem _ hq)
    simp only [scanRows, Row.Scan, hr, Slice.append, Slice.toList]
    rw [ih _ hrest]
    simp [Row.toInventory]

/-- An early return of the loop of `Find` carries an error classified InternalError. -/
theorem scanRows_error_internal (res : PaginatedInventories) (rows : List Row)
    (res1 : PaginatedInventories) (err : GoError) (h : scanRows res rows = (res1, some err)) :
    errorsIs err GoError.ErrInternalServer = true := by
  induction rows generalizing res with
  | nil => simp [scanRows] at h
  | cons r rest ih =>
    unfold scanRows at h
    cases hr : r.Scan with
    | error e =>
      simp only [hr, Prod.mk.injEq, Option.some.injEq] at h
      rw [← h.2]
      simp [errorsIs]
    | ok inv =>
      simp only [hr] at h
      exact ih _ h

/-- Index `len - 1` of a non-empty list is its last element. -/
theorem getD_length_sub_one {α : Type} (xs : List α) (x d : α) :
    (xs ++ [x]).getD ((xs ++ [x]).length - 1) d = x := by
  simp [List.getD_eq_getElem?_getD]

/-- When the query itself fails, `Find` wraps the store's error directly: the
result is classified InternalError only if the store's error already is. -/
theorem Find_query_failure {σ : Type} (db : DB σ) (s s1 : σ) (filter : GetInventoriesFilter)
    (e : GoError)
    (hq : db.QueryContext s (buildQueryStatement filter).1 (buildQueryStatement filter).2
            = (Except.error e, s1)) :
    (Find db s filter).1.2
        = some (GoError.wrapError ("unable to query inventories: " ++ e.Error) e) ∧
      ∀ err, (Find db s filter).1.2 = some err →
        errorsIs err GoError.ErrInternalServer = errorsIs e GoError.ErrInternalServer := by
  unfold Find
  simp only [hq, Option.some.injEq]
  refine ⟨trivial, fun err h => ?_⟩
  rw [← h]
  exact errorsIs_wrapError_internal _ _

/-- When the query succeeds, every error `Find` returns (a failed row scan or a
row-iteration error) is classified InternalError. -/
theorem Find_later_failure_internal {σ : Type} (db : DB σ) (s s1 : σ)
    (filter : GetInventoriesFilter) (rows : Rows)
    (hq : db.QueryContext s (buildQueryStatement filter).1 (buildQueryStatement filter).2
            = (Except.ok rows, s1))
    (err : GoError) (h : (Find db s filter).1.2 = some err) :
    errorsIs err GoError.ErrInternalServer = true := by
  unfold Find at h
  simp only [hq] at h
  rcases hsr : scanRows { Inventories := Slice.of [], Cursor := 0 } rows.rows with ⟨res1, oe⟩
  rw [hsr] at h
  cases oe with
  | some e1 =>
    simp only [Option.some.injEq] at h
    subst h
    exact scanRows_error_internal _ _ _ _ hsr
  | none =>
    cases hre : rows.Err with
    | some e2 =>
      simp only [hre, Option.some.injEq] at h
      subst h
      simp [errorsIs]
    | none => simp [hre] at h

/-! ## Properties of the update statement builder -/

/-- C2: with all five fields absent, `buildUpdateStatement` returns exactly the
text `UPDATE inventories WHERE id = $1` and the one-element parameter list holding
the id; no assignment (in particular no `updated_at`) is produced. -/
theorem C2_update_all_absent (id : ID) (now : Time) :
    buildUpdateStatement id ⟨none, none, none, none, none⟩ now
        = ("UPDATE inventories WHERE id = $1", [Param.id id]) ∧
      (buildUpdateLocals id ⟨none, none, none, none, none⟩ now).setColumns = [] := by
  exact ⟨rfl, rfl⟩

/-- C1: when k ≥ 1 fields are present, the SET clause has k+1 assignments, the
text is `UPDATE inventories SET a1, ..., a(k+1) WHERE id = $(k+2)`, the statement's
placeholders are exactly 1..k+2 (so the WHERE placeholder is the highest), and
there are k+2 parameters. -/
theorem C1_update_set_clause_size (id : ID) (d : PartialInventoryData) (now : Time)
    (h : 1 ≤ presentCount d) :
    (buildUpdateLocals id d now).setColumns.length = presentCount d + 1 ∧
      (buildUpdateStatement id d now).1
        = "UPDATE inventories SET " ++ ", ".intercalate (buildUpdateLocals id d now).setColumns
            ++ " WHERE id = $" ++ Itoa (Int.ofNat (presentCount d + 2)) ∧
      placeholders (buildUpdateStatement id d now).1.data = List.range' 1 (presentCount d + 2) ∧
      (buildUpdateStatement id d now).2.length = presentCount d + 2 := by
  obtain ⟨n, de, f, c, m⟩ := d
  cases n <;> cases de <;> cases f <;> cases c <;> cases m <;>
    first
      | exact absurd h (by decide)
      | (simp only [presentCount, Option.isSome_some, Option.isSome_none, Bool.false_eq_true,
          if_true, if_false, Nat.reduceAdd]
         exact ⟨by rfl, by rfl, by rfl, by rfl⟩)

/-- Witness for C1: two present fields give three assignments, placeholders
1..4 and four parameters. -/
theorem C1_update_set_clause_size_witness :
    1 ≤ presentCount ⟨some "nut", none, none, some 3, none⟩ ∧
      (buildUpdateLocals 7 ⟨some "nut", none, none, some 3, none⟩ 0).setColumns.length = 3 ∧
      (buildUpdateStatement 7 ⟨some "nut", none, none, some 3, none⟩ 0).1
        = "UPDATE inventories SET count = $1, name = $2, updated_at = $3 WHERE id = $4" ∧
      placeholders (buildUpdateStatement 7 ⟨some "nut", none, none, some 3, none⟩ 0).1.data
        = [1, 2, 3, 4] ∧
      (buildUpdateStatement 7 ⟨some "nut", none, none, some 3, none⟩ 0).2.length = 4 :=
  ⟨by decide, C1_update_set_clause_size 7 ⟨some "nut", none, none, some 3, none⟩ 0 (by decide)⟩

/-- C3: the SET assignments are the present fields in the order count,
description, full_price_thb, manufacturer_id, name, then `updated_at` when any is
present; the i-th assignment is `<column> = $i`; the parameters are the values of
those columns in the same order followed by the id; and the placeholders of the
text are 1, 2, ..., n in this order, n being the number of parameters. -/
theorem C3_update_assignment_order (id : ID) (d : PartialInventoryData) (now : Time) :
    (buildUpdateLocals id d now).setColumns = specAssignments (specAssignedFields d now) ∧
      (buildUpdateStatement id d now).2
        = (specAssignedFields d now).map Prod.snd ++ [Param.id id] ∧
      (buildUpdateStatement id d now).1
        = "UPDATE inventories"
            ++ (if (specAssignedFields d now).isEmpty then ""
                else " SET " ++ ", ".intercalate (specAssignments (specAssignedFields d now)))
            ++ " WHERE id = $" ++ Itoa (Int.ofNat ((specAssignedFields d now).length + 1)) ∧
      placeholders (buildUpdateStatement id d now).1.data
        = List.range' 1 (buildUpdateStatement id d now).2.length := by
  obtain ⟨n, de, f, c, m⟩ := d
  cases n <;> cases de <;> cases f <;> cases c <;> cases m <;>
    (simp only [specAssignedFields, optField, Option.map_some', Option.map_none',
       List.append_nil, List.nil_append, List.cons_append, List.isEmpty_cons, List.isEmpty_nil,
       List.length_cons, List.length_nil, Bool.false_eq_true, if_true, if_false, Nat.reduceAdd]
     exact ⟨by rfl, by rfl, by rfl, by rfl⟩)

/-! ## Properties of the list statement builder -/

/-- C4: the list statement is the fixed select of the eight columns, then
` WHERE id > $1` exactly when cursor > 0, then ` ORDER BY id`, then ` LIMIT $n`
exactly when limit > 0, with n = 2 if cursor > 0 and n = 1 otherwise; the
parameters are the cursor (when > 0) followed by the limit (when > 0). With both
zero there is no WHERE, no LIMIT and no parameter; with both positive the
parameters are cursor, limit under placeholders 1, 2. -/
theorem C4_query_statement (filter : GetInventoriesFilter) :
    (buildQueryStatement filter).1
        = "SELECT id, name, description, full_price_thb, manufacturer_id, count, created_at, updated_at FROM inventories"
            ++ (if 0 < filter.Cursor then " WHERE id > $1" else "")
            ++ " ORDER BY id"
            ++ (if 0 < filter.Limit then
                  " LIMIT $" ++ (if 0 < filter.Cursor then "2" else "1")
                else "") ∧
      (buildQueryStatement filter).2
        = (if 0 < filter.Cursor then [Param.id filter.Cursor] else [])
            ++ (if 0 < filter.Limit then [Param.uint64 filter.Limit] else []) ∧
      placeholders (buildQueryStatement filter).1.data
        = List.range' 1 (buildQueryStatement filter).2.length ∧
      buildQueryStatement ⟨0, 0⟩
        = ("SELECT id, name, description, full_price_thb, manufacturer_id, count, created_at, updated_at FROM inventories ORDER BY id",
            []) ∧
      buildQueryStatement ⟨filter.Cursor + 1, filter.Limit + 1⟩
        = ("SELECT id, name, description, full_price_thb, manufacturer_id, count, created_at, updated_at FROM inventories WHERE id > $1 ORDER BY id LIMIT $2",
            [Param.id (filter.Cursor + 1), Param.uint64 (filter.Limit + 1)]) := by
  refine ⟨?_, ?_, ?_, by rfl, ?_⟩
  · rw [buildQueryStatement_cases]
    by_cases hc : 0 < filter.Cursor <;> by_cases hl : 0 < filter.Limit <;>
      simp only [hc, hl, if_true, if_false] <;> decide
  · rw [buildQueryStatement_cases]
    by_cases hc : 0 < filter.Cursor <;> by_cases hl : 0 < filter.Limit <;>
      simp only [hc, hl, if_true, if_false] <;> rfl
  · rw [buildQueryStatement_cases]
    by_cases hc : 0 < filter.Cursor <;> by_cases hl : 0 < filter.Limit <;>
      simp only [hc, hl, if_true, if_false] <;> rfl
  · rw [buildQueryStatement_cases]
    simp only [Nat.zero_lt_succ, if_true]

/-! ## Values stay out of the statement text -/

/-- C10: two update statements built from payloads with the same set of present
fields have the same text, whatever the ids, values and clock readings; two list
statements built from filters agreeing on `cursor > 0` and on `limit > 0` have the
same text. -/
theorem C10_values_never_in_text (id1 id2 : ID) (d1 d2 : PartialInventoryData)
    (now1 now2 : Time) (f1 f2 : GetInventoriesFilter) (hd : samePresence d1 d2)
    (hc : 0 < f1.Cursor ↔ 0 < f2.Cursor) (hl : 0 < f1.Limit ↔ 0 < f2.Limit) :
    (buildUpdateStatement id1 d1 now1).1 = (buildUpdateStatement id2 d2 now2).1 ∧
      (buildQueryStatement f1).1 = (buildQueryStatement f2).1 := by
  constructor
  · rw [updateText_eq_shape id1 d1 now1, updateText_eq_shape id2 d2 now2,
      shape_eq_of_samePresence d1 d2 hd]
  · rw [buildQueryStatement_cases, buildQueryStatement_cases]
    by_cases h1 : 0 < f1.Cursor <;> by_cases h2 : 0 < f1.Limit <;>
      simp only [h1, h2, ← hc, ← hl, if_true, if_false]

/-- Witness for C10: a full payload against another full payload with other
values, and two filters with positive cursor and limit. -/
theorem C10_values_never_in_text_witness :
    (buildUpdateStatement 1 ⟨some "a", some "b", some 1, some 2, some 3⟩ 10).1
        = (buildUpdateStatement 2 ⟨some "x; DROP TABLE inventories", some "", some 0, some 9, some 7⟩ 20).1 ∧
      (buildQueryStatement ⟨3, 4⟩).1 = (buildQueryStatement ⟨50, 60⟩).1 :=
  C10_values_never_in_text 1 2 ⟨some "a", some "b", some 1, some 2, some 3⟩
    ⟨some "x; DROP TABLE inventories", some "", some 0, some 9, some 7⟩ 10 20 ⟨3, 4⟩ ⟨50, 60⟩
    (by simp [samePresence]) (by decide) (by decide)

/-! ## Repository operations -/

/-- C6: `Update` returns `ErrInventoryNotFound` (and, more generally, an error
classified NotFound) exactly when execution succeeds and the affected-row count is
read as zero; it returns an error classified InternalError exactly when execution
fails or the count cannot be read; it returns no error exactly when the count is
read and non-zero. This holds for every payload, the all-absent one included. -/
theorem C6_update_outcome {σ : Type} (db : DB σ) (s : σ) (id : ID)
    (d : PartialInventoryData) (now : Time) :
    ((Update db s id d now).1 = some GoError.ErrInventoryNotFound ↔
        ∃ r, (db.ExecContext s (buildUpdateStatement id d now).1
                (buildUpdateStatement id d now).2).1 = Except.ok r ∧
              r.RowsAffected = Except.ok 0) ∧
      ((∃ err, (Update db s id d now).1 = some err ∧
            errorsIs err GoError.ErrInventoryNotFound = true) ↔
        ∃ r, (db.ExecContext s (buildUpdateStatement id d now).1
                (buildUpdateStatement id d now).2).1 = Except.ok r ∧
              r.RowsAffected = Except.ok 0) ∧
      ((∃ err, (Update db s id d now).1 = some err ∧
            errorsIs err GoError.ErrInternalServer = true) ↔
        ((∃ e, (db.ExecContext s (buildUpdateStatement id d now).1
                (buildUpdateStatement id d now).2).1 = Except.error e) ∨
          ∃ r e, (db.ExecContext s (buildUpdateStatement id d now).1
                (buildUpdateStatement id d now).2).1 = Except.ok r ∧
              r.RowsAffected = Except.error e)) ∧
      ((Update db s id d now).1 = none ↔
        ∃ r n, (db.ExecContext s (buildUpdateStatement id d now).1
                (buildUpdateStatement id d now).2).1 = Except.ok r ∧
              r.RowsAffected = Except.ok n ∧ n ≠ 0) := by
  unfold Update
  rcases hx : db.ExecContext s (buildUpdateStatement id d now).1
      (buildUpdateStatement id d now).2 with ⟨out, s1⟩
  cases out with
  | error e => simp [hx, errorsIs]
  | ok r =>
    rcases hr : r.RowsAffected with e | n
    · simp [hx, hr, errorsIs]
    · by_cases hn : n = 0
      · subst hn
        simp [hx, hr, errorsIs]
      · simp [hx, hr, hn, errorsIs]

/-- Witness for C6: updating an id the store does not hold, with the all-absent
payload, returns `ErrInventoryNotFound`. -/
theorem C6_update_outcome_witness :
    (Update memoryDB twoRows 5 ⟨none, none, none, none, none⟩ 0).1
      = some GoError.ErrInventoryNotFound :=
  (C6_update_outcome memoryDB twoRows 5 ⟨none, none, none, none, none⟩ 0).1.2 ⟨_, rfl, rfl⟩

/-- C7: when the query succeeds, every row scans and iteration ends without
error, `Find` returns no error and a non-nil list holding the rows' records in
the same order with the same field values; the cursor is the id of the last row,
or 0 when there is none. -/
theorem C7_find_success {σ : Type} (db : DB σ) (s s1 : σ) (filter : GetInventoriesFilter)
    (rows : List Row)
    (hq : db.QueryContext s (buildQueryStatement filter).1 (buildQueryStatement filter).2
            = (Except.ok { rows := rows, Err := none }, s1))
    (hs : ∀ r ∈ rows, r.scanErr = none) :
    Find db s filter
        = (({ Inventories := Slice.of (rows.map Row.toInventory),
              Cursor := (rows.getLast?.map Row.id).getD 0 }, none), s1) ∧
      (Find db s filter).1.1.Inventories.isNil = false := by
  have hfind : Find db s filter
        = (({ Inventories := Slice.of (rows.map Row.toInventory),
              Cursor := (rows.getLast?.map Row.id).getD 0 }, none), s1) := by
    unfold Find
    simp only [hq, scanRows_all_ok [] 0 rows hs, List.nil_append]
    rcases List.eq_nil_or_concat rows with h | ⟨init, r, h⟩
    · subst h
      simp [Slice.len, Slice.toList]
    · subst h
      simp only [Slice.len, Slice.toList, List.map_append, List.map_cons, List.map_nil,
        List.length_append, List.length_map, List.length_cons, List.length_nil]
      have := getD_length_sub_one (init.map Row.toInventory) r.toInventory
        ⟨0, ⟨"", "", 0, 0, 0⟩, 0, 0⟩
      simp only [List.length_append, List.length_map, List.length_cons, List.length_nil] at this
      simp [this, Row.toInventory]
  exact ⟨hfind, by rw [hfind]; rfl⟩

/-- Witness for C7: the two-row store yields both records in order and cursor 9. -/
theorem C7_find_success_witness :
    Find memoryDB twoRows ⟨0, 0⟩
      = (({ Inventories := Slice.of
              [⟨4, ⟨"bolt", "m4 bolt", 250, 100, 17⟩, 1000, 1000⟩,
               ⟨9, ⟨"nut", "m4 nut", 120, 80, 17⟩, 1001, 1002⟩],
            Cursor := 9 }, none), twoRows) :=
  (C7_find_success memoryDB twoRows twoRows ⟨0, 0⟩ twoRows rfl (by decide)).1

/-- C8: `Delete` returns no error exactly when statement execution does not
fail, whatever result (affected-row count) the store reports; it returns an error
exactly when execution fails, and that error is classified InternalError and not
NotFound; the store state is the one execution leaves. Hence against a store
whose execution never fails, two successive deletes of the same id both succeed. -/
theorem C8_delete_outcome {σ : Type} (db : DB σ) (s : σ) (id : ID) :
    ((Delete db s id).1 = none ↔
        ∃ r, (db.ExecContext s deleteStatement [Param.id id]).1 = Except.ok r) ∧
      ((∃ err, (Delete db s id).1 = some err) ↔
        ∃ e, (db.ExecContext s deleteStatement [Param.id id]).1 = Except.error e) ∧
      (∀ err, (Delete db s id).1 = some err →
        errorsIs err GoError.ErrInternalServer = true ∧
          errorsIs err GoError.ErrInventoryNotFound = false) ∧
      (Delete db s id).2 = (db.ExecContext s deleteStatement [Param.id id]).2 ∧
      ((∀ s0, ∃ r, (db.ExecContext s0 deleteStatement [Param.id id]).1 = Except.ok r) →
        (Delete db s id).1 = none ∧ (Delete db (Delete db s id).2 id).1 = none) := by
  have key : ∀ s0, ((Delete db s0 id).1 = none ↔
        ∃ r, (db.ExecContext s0 deleteStatement [Param.id id]).1 = Except.ok r) := by
    intro s0
    unfold Delete
    rcases hx : db.ExecContext s0 deleteStatement [Param.id id] with ⟨out, s1⟩
    cases out <;> simp
  refine ⟨key s, ?_, ?_, ?_, fun h => ⟨(key s).2 (h s), (key _).2 (h _)⟩⟩
  · unfold Delete
    rcases hx : db.ExecContext s deleteStatement [Param.id id] with ⟨out, s1⟩
    cases out <;> simp
  · intro err
    unfold Delete
    rcases hx : db.ExecContext s deleteStatement [Param.id id] with ⟨out, s1⟩
    cases out with
    | error e =>
      intro h
      simp only [Option.some.injEq] at h
      subst h
      simp [errorsIs]
    | ok r => simp
  · unfold Delete
    rcases hx : db.ExecContext s deleteStatement [Param.id id] with ⟨out, s1⟩
    cases out <;> simp

/-- Witness for C8: on the two-row store, deleting id 4 twice succeeds both times;
the second delete runs on the store without that row. -/
theorem C8_delete_twice_witness :
    (Delete memoryDB twoRows 4).1 = none ∧
      (Delete memoryDB (Delete memoryDB twoRows 4).2 4).1 = none :=
  (C8_delete_outcome memoryDB twoRows 4).2.2.2.2 (fun s0 => by simp [memoryDB])
/-- C5 (divergence of the code): when query execution fails with a store error,
`Find` returns that error wrapped without `ErrInternalServer`, so `errors.Is`
against `ErrInternalServer` is false. -/
theorem C5_find_query_failure_not_internal :
    (Find refusingDB () ⟨0, 0⟩).1.2
        = some (GoError.wrapError "unable to query inventories: connection refused"
            (GoError.store "connection refused")) ∧
      ∃ err, (Find refusingDB () ⟨0, 0⟩).1.2 = some err ∧
        errorsIs err GoError.ErrInternalServer = false := by
  refine ⟨by rfl, _, rfl, by decide⟩

/-- C9: each use case returns the repository's value and store state unchanged,
no error when the repository reports none, and otherwise the repository's error
behind the operation context with the same NotFound / InternalError
classification; the handler's `createErrorResponse` answers 404 exactly for errors
classified NotFound and 500 with the body `internal server error` for all others. -/
theorem C9_usecases_relay {σ : Type} (u : InventoryRepository σ) (s : σ)
    (inventory : InventoryData) (filter : GetInventoriesFilter) (id : ID)
    (d : PartialInventoryData) (e : GoError) :
    ((CreateInventory u s inventory).1.1 = (u.Create s inventory).1.1 ∧
        (CreateInventory u s inventory).2 = (u.Create s inventory).2 ∧
        relayed "unable to create inventory: " (u.Create s inventory).1.2
          (CreateInventory u s inventory).1.2) ∧
      ((GetInventories u s filter).1.1 = (u.Find s filter).1.1 ∧
        (GetInventories u s filter).2 = (u.Find s filter).2 ∧
        relayed "unable to get inventories: " (u.Find s filter).1.2
          (GetInventories u s filter).1.2) ∧
      ((UpdateInventory u s id d).2 = (u.Update s id d).2 ∧
        relayed "unable to update inventory: " (u.Update s id d).1 (UpdateInventory u s id d).1) ∧
      ((DeleteInventory u s id).2 = (u.Delete s id).2 ∧
        relayed "unable to delete inventory: " (u.Delete s id).1 (DeleteInventory u s id).1) ∧
      (((createErrorResponse e).1 = 404 ↔ errorsIs e GoError.ErrInventoryNotFound = true) ∧
        (errorsIs e GoError.ErrInventoryNotFound = true →
          createErrorResponse e = (404, { Error := e.Error })) ∧
        (errorsIs e GoError.ErrInventoryNotFound = false →
          createErrorResponse e = (500, { Error := "internal server error" }))) := by
  refine ⟨?_, ?_, ?_, ?_, ?_⟩
  · unfold CreateInventory
    rcases hx : u.Create s inventory with ⟨⟨v, oe⟩, s1⟩
    cases oe with
    | none => exact ⟨rfl, rfl, rfl⟩
    | some err => exact ⟨rfl, rfl, relayed_wrap _ err⟩
  · unfold GetInventories
    rcases hx : u.Find s filter with ⟨⟨v, oe⟩, s1⟩
    cases oe with
    | none => exact ⟨rfl, rfl, rfl⟩
    | some err => exact ⟨rfl, rfl, relayed_wrap _ err⟩
  · unfold UpdateInventory
    rcases hx : u.Update s id d with ⟨oe, s1⟩
    cases oe with
    | none => exact ⟨rfl, rfl⟩
    | some err => exact ⟨rfl, relayed_wrap _ err⟩
  · unfold DeleteInventory
    rcases hx : u.Delete s id with ⟨oe, s1⟩
    cases oe with
    | none => exact ⟨rfl, rfl⟩
    | some err => exact ⟨rfl, relayed_wrap _ err⟩
  · unfold createErrorResponse
    cases h : errorsIs e GoError.ErrInventoryNotFound <;> simp

/-- Witness for C9: a NotFound from the repository's `Update` reaches the handler
as 404 with the annotated text. -/
theorem C9_usecases_relay_witness :
    relayed "unable to update inventory: " (some GoError.ErrInventoryNotFound)
        (UpdateInventory failingRepository () 1 ⟨none, none, none, none, none⟩).1 ∧
      createErrorResponse
          (GoError.wrapError "unable to update inventory: inventory not found"
            GoError.ErrInventoryNotFound)
        = (404, { Error := "unable to update inventory: inventory not found" }) :=
  ⟨(C9_usecases_relay failingRepository () ⟨"", "", 0, 0, 0⟩ ⟨0, 0⟩ 1
      ⟨none, none, none, none, none⟩ GoError.ErrInternalServer).2.2.1.2,
   (C9_usecases_relay failingRepository () ⟨"", "", 0, 0, 0⟩ ⟨0, 0⟩ 1
      ⟨none, none, none, none, none⟩
      (GoError.wrapError "unable to update inventory: inventory not found"
        GoError.ErrInventoryNotFound)).2.2.2.2.2.1 (by decide)⟩

end GoHttpServe
